import Mathlib

/-!
AUTOGIRO backend (`server.js`): authentication, owner-scoped vehicles, dashboard.

A shallow embedding of the request handlers of `server.js`.

* The MySQL tables `users` and `vehicles` are lists of rows inside a `Store`;
  every `db.execute` call of the source is one function on the store and one
  entry of the statement trace returned with the response.
* `bcrypt`, `jsonwebtoken` and the engine's coercion of bound parameters are
  external collaborators; they are the fields of `Services`.
* A field of a vehicle body is any JSON value (`JsValue`); the bodies of login
  and register carry their fields as strings, present or absent.
* Text columns are `VARCHAR` of the declared width under the collation
  `utf8mb4_unicode_ci`: `storeVarchar` keeps, rejects or cuts a text, and emails
  are compared through `Services.collationKey`.
* `DECIMAL(15,2)` values are integers counting hundredths; the `AVG` of the
  dashboard is a decimal with six digits after the point, an integer counting
  millionths. The driver hands decimals to the handler as strings.
* Connection loss is outside the model; a statement fails only through a
  constraint of the schema or through a rejected parameter.
-/

namespace Autogiro

/-! ## JSON payloads -/

/-- JSON documents handed to `res.json`. -/
inductive Json where
  | null
  | bool (b : Bool)
  | num (x : ℚ)
  | str (s : String)
  | arr (items : List Json)
  | obj (fields : List (String × Json))

/-- Property names of a JSON object, in order. -/
def Json.keys : Json → List String
  | .obj fields => fields.map Prod.fst
  | _ => []

/-- Property lookup on a JSON object. -/
def Json.get (j : Json) (key : String) : Option Json :=
  match j with
  | .obj fields => (fields.find? (fun kv => kv.1 == key)).map Prod.snd
  | _ => none

/-- HTTP response: `res.status(status).json(body)`. -/
structure Response where
  status : Nat
  body : Json

/-- The envelope `res.status(status).json({ success: false, message })`. -/
def failure (status : Nat) (message : String) : Response :=
  ⟨status, .obj [("success", .bool false), ("message", .str message)]⟩

/-! ## JavaScript values of the request body -/

/-- A field of `req.body` after `express.json()`: `undefined` when the property
is missing, otherwise the JSON value; arrays and objects are `other`. -/
inductive JsValue where
  | undefined
  | null
  | bool (b : Bool)
  | number (x : ℚ)
  | string (s : String)
  | other
deriving DecidableEq

/-- JavaScript truthiness: `undefined`, `null`, `false`, the number `0` and `''`
are falsy; every other value is truthy. -/
def truthy : JsValue → Bool
  | .undefined => false
  | .null => false
  | .bool b => b
  | .number x => x != 0
  | .string s => s != ""
  | .other => true

/-- The expression `value || fallback`. -/
def jsOr (value fallback : JsValue) : JsValue :=
  if truthy value then value else fallback

/-- JavaScript `String.prototype.length`: the number of UTF-16 code units. -/
def jsLength (s : String) : Nat :=
  (s.toList.map (fun c => if 65536 ≤ c.toNat then 2 else 1)).sum

/-- JavaScript `s.split(' ')` on the characters of `s`. -/
def splitOnSpace : List Char → List (List Char)
  | [] => [[]]
  | c :: cs =>
    if c = Char.ofNat 32 then [] :: splitOnSpace cs
    else
      match splitOnSpace cs with
      | [] => [[c]]
      | w :: ws => (c :: w) :: ws

/-! ## Rows and store -/

/-- Column `role ENUM('admin', 'vendedor', 'usuario')`. -/
inductive Role where
  | admin
  | vendedor
  | usuario
deriving DecidableEq

/-- Column `status ENUM('ativo', 'inativo')`. -/
inductive Status where
  | ativo
  | inativo
deriving DecidableEq

/-- Row of table `users`. -/
structure UserRow where
  id : Nat
  name : String
  email : String
  password : String
  role : Role
  status : Status
  created_at : Nat
  updated_at : Nat
deriving DecidableEq

/-- Row of table `vehicles`; the four `DECIMAL(15,2)` columns count hundredths.
The columns `ano`, `fipe` and `impostos` carry no `NOT NULL`, but every `INSERT`
and `UPDATE` of the program binds a value for them (`ano || ''`, `fipe || 0`,
`impostos || 0`), so they are always present; `observacoes` is never bound and
stays `NULL`. -/
structure VehicleRow where
  id : Nat
  user_id : Nat
  marca : String
  modelo : String
  ano : String
  fipe : Int
  valor_compra : Int
  impostos : Int
  valor_venda : Int
  observacoes : Option String
  created_at : Nat
  updated_at : Nat
deriving DecidableEq

/-- The database: both tables and their `AUTO_INCREMENT` counters. -/
structure Store where
  users : List UserRow
  vehicles : List VehicleRow
  nextUserId : Nat
  nextVehicleId : Nat
deriving DecidableEq

/-- Payload signed into a token: `{ id, email }`. -/
structure Claims where
  id : Nat
  email : String
deriving DecidableEq

/-- External collaborators of the handlers. -/
structure Services where
  /-- The call `bcrypt.hash(password, 10)`; the second argument is the fresh salt. -/
  hash : String → Nat → String
  /-- The call `bcrypt.compare(password, stored)`. -/
  compare : String → String → Bool
  /-- The call `jwt.sign(claims, JWT_SECRET, 24h)` at the given instant. -/
  sign : Claims → Nat → String
  /-- The call `jwt.verify(token, JWT_SECRET)` at the given instant; `none` is `err`. -/
  verify : String → Nat → Option Claims
  /-- Whether the `sql_mode` of the server is strict. -/
  strict : Bool
  /-- The weight string of a text under `utf8mb4_unicode_ci`: two texts are equal
  for `=` and for a `UNIQUE` index exactly when their weight strings are equal. -/
  collationKey : String → String
  /-- The text a bound parameter becomes for a `VARCHAR` column; `none` rejects the statement. -/
  toText : JsValue → Option String
  /-- The hundredths a bound parameter becomes in a `DECIMAL(15,2)` column; `none`
  rejects the statement. -/
  toDecimal : JsValue → Option Int
  /-- The integer that the bound string `req.params.id` equals in `WHERE id = ?`, if any. -/
  paramId : String → Option Nat

/-- The statements the handlers send through `db.execute`. -/
inductive Sql where
  | selectUserByEmail
  | selectUserIdByEmail
  | insertUser
  | selectVehiclesByUser
  | insertVehicle
  | selectVehicleById
  | selectVehicleByIdAndUser
  | updateVehicle
  | deleteVehicle
  | selectDashboard
deriving DecidableEq

/-- What a handler leaves behind: the response, the store, and the statements issued, in order. -/
structure Outcome where
  response : Response
  store : Store
  trace : List Sql

/-- The request as the handlers read it: the `authorization` header,
`req.params.id`, `req.body` and the identity `req.user` set by the guard. -/
structure Request (β : Type) where
  authorization : Option String
  id : String
  body : β
  user : Option Claims

/-! ## Statements -/

/-- Storage of a text into a `VARCHAR(width)` column: a text within the width
is kept; a longer one is rejected in strict mode unless only spaces are lost,
and otherwise cut to the width. -/
def storeVarchar (E : Services) (width : Nat) (t : String) : Option String :=
  if t.length ≤ width then some t
  else if E.strict && (t.toList.drop width).any (fun c => decide (c ≠ Char.ofNat 32)) then none
  else some (String.mk (t.toList.take width))

/-- Rows of `SELECT * FROM users WHERE email = ?`, the comparison being that of
the collation of the column. -/
def selectUsersByEmail (E : Services) (s : Store) (email : Option String) : List UserRow :=
  s.users.filter (fun u => decide (some (E.collationKey u.email) = email.map E.collationKey))

/-- Rows of `SELECT id FROM users WHERE email = ?`. -/
def selectUserIdsByEmail (E : Services) (s : Store) (email : Option String) : List Nat :=
  (selectUsersByEmail E s email).map (fun u => u.id)

/-- Statement `INSERT INTO users (name, email, password) VALUES (?, ?, ?)`: the
three texts go into `VARCHAR(255)` columns, the row takes the next
`AUTO_INCREMENT` id and the column defaults, and the `UNIQUE` index on `email`
rejects a row whose email equals a stored one under the collation. -/
def insertUser (E : Services) (s : Store) (name email password : String) (now : Nat) :
    Option (Nat × Store) :=
  match storeVarchar E 255 name, storeVarchar E 255 email, storeVarchar E 255 password with
  | some n, some e, some p =>
    if s.users.any (fun u => decide (E.collationKey u.email = E.collationKey e)) then none
    else
      some (s.nextUserId,
        { s with
          users := s.users ++
            [{ id := s.nextUserId, name := n, email := e, password := p,
               role := Role.usuario, status := Status.ativo, created_at := now,
               updated_at := now }]
          nextUserId := s.nextUserId + 1 })
  | _, _, _ => none

/-- Rows of `SELECT * FROM vehicles WHERE user_id = ? ORDER BY created_at DESC`. -/
def selectVehiclesByUser (s : Store) (userId : Nat) : List VehicleRow :=
  (s.vehicles.filter (fun v => decide (v.user_id = userId))).insertionSort
    (fun a b => b.created_at ≤ a.created_at)

/-- Statement `INSERT INTO vehicles (user_id, marca, modelo, ano, fipe, valor_compra,
impostos, valor_venda) VALUES (...)`: rejected when a parameter is not storable
in its column (`VARCHAR(100)`, `VARCHAR(100)`, `VARCHAR(10)`, `DECIMAL(15,2)`) or
when `user_id` references no user. -/
def insertVehicle (E : Services) (s : Store) (userId : Nat)
    (marca modelo ano fipe valorCompra impostos valorVenda : JsValue) (now : Nat) :
    Option (Nat × Store) :=
  match (E.toText marca).bind (storeVarchar E 100), (E.toText modelo).bind (storeVarchar E 100),
      (E.toText ano).bind (storeVarchar E 10), E.toDecimal fipe, E.toDecimal valorCompra,
      E.toDecimal impostos, E.toDecimal valorVenda with
  | some ma, some mo, some an, some f, some c, some i, some v =>
    if s.users.any (fun u => decide (u.id = userId)) then
      some (s.nextVehicleId,
        { s with
          vehicles := s.vehicles ++
            [{ id := s.nextVehicleId, user_id := userId, marca := ma, modelo := mo, ano := an,
               fipe := f, valor_compra := c, impostos := i, valor_venda := v,
               observacoes := none, created_at := now, updated_at := now }]
          nextVehicleId := s.nextVehicleId + 1 })
    else none
  | _, _, _, _, _, _, _ => none

/-- Rows of `SELECT * FROM vehicles WHERE id = ?` for a numeric id. -/
def selectVehicleById (s : Store) (id : Nat) : List VehicleRow :=
  s.vehicles.filter (fun v => decide (v.id = id))

/-- The condition `WHERE id = ? AND user_id = ?` with `req.params.id` and `req.user.id` bound. -/
def ownedBy (E : Services) (vehicleId : String) (userId : Nat) (v : VehicleRow) : Bool :=
  decide (E.paramId vehicleId = some v.id) && decide (v.user_id = userId)

/-- Rows of `SELECT * FROM vehicles WHERE id = ? AND user_id = ?`. -/
def selectVehicleByIdAndUser (E : Services) (s : Store) (vehicleId : String) (userId : Nat) :
    List VehicleRow :=
  s.vehicles.filter (ownedBy E vehicleId userId)

/-- One row after `SET marca = ?, modelo = ?, ano = ?, fipe = ?, valor_compra = ?,
impostos = ?, valor_venda = ?`; `updated_at` moves only when a column changes. -/
def assign (r : VehicleRow) (ma mo ano : String) (f c i v : Int) (now : Nat) : VehicleRow :=
  let r1 := { r with marca := ma, modelo := mo, ano := ano, fipe := f, valor_compra := c,
                     impostos := i, valor_venda := v }
  if r1 = r then r else { r1 with updated_at := now }

/-- Statement `UPDATE vehicles SET ... WHERE id = ? AND user_id = ?`: the number
of rows found and the new store. Values are stored row by row, so with no row
found nothing is stored and nothing is rejected. -/
def updateVehicle (E : Services) (s : Store)
    (marca modelo ano fipe valorCompra impostos valorVenda : JsValue) (vehicleId : String)
    (userId : Nat) (now : Nat) : Option (Nat × Store) :=
  if (s.vehicles.filter (ownedBy E vehicleId userId)).isEmpty then some (0, s)
  else
    match (E.toText marca).bind (storeVarchar E 100), (E.toText modelo).bind (storeVarchar E 100),
        (E.toText ano).bind (storeVarchar E 10), E.toDecimal fipe, E.toDecimal valorCompra,
        E.toDecimal impostos, E.toDecimal valorVenda with
    | some ma, some mo, some an, some f, some c, some i, some v =>
      some ((s.vehicles.filter (ownedBy E vehicleId userId)).length,
        { s with
          vehicles := s.vehicles.map
            (fun r => if ownedBy E vehicleId userId r then assign r ma mo an f c i v now else r) })
    | _, _, _, _, _, _, _ => none

/-- Statement `DELETE FROM vehicles WHERE id = ? AND user_id = ?`: the number of
rows removed and the new store. -/
def deleteVehicle (E : Services) (s : Store) (vehicleId : String) (userId : Nat) : Nat × Store :=
  ((s.vehicles.filter (ownedBy E vehicleId userId)).length,
    { s with vehicles := s.vehicles.filter (fun v => !ownedBy E vehicleId userId v) })

/-- The expression `valor_venda - valor_compra - impostos`, in hundredths. -/
def margin (v : VehicleRow) : Int :=
  v.valor_venda - v.valor_compra - v.impostos

/-- The quotient `n / d` rounded to the nearest integer, a half going away from zero. -/
def roundHalfAway (n : Int) (d : Nat) : Int :=
  if 0 ≤ n then ((2 * n.natAbs + d) / (2 * d) : Nat) else -((2 * n.natAbs + d) / (2 * d) : Nat)

/-- The single row of `SELECT COUNT(*), AVG(...), SUM(...) FROM vehicles WHERE user_id = ?`:
the count, the average in millionths (`DECIMAL` of scale 6) and the sum in
hundredths (`DECIMAL` of scale 2); `none` is SQL `NULL`. -/
structure Stats where
  total_vehicles : Nat
  avg_margin : Option Int
  total_margin : Option Int
deriving DecidableEq

/-- The aggregates of the dashboard query: `COUNT(*)` counts the rows, `SUM` adds
the margins, `AVG` is the sum divided by the number of rows and rounded to six
digits after the point, and both are `NULL` over no rows. -/
def selectDashboard (s : Store) (userId : Nat) : Stats :=
  let rows := s.vehicles.filter (fun v => decide (v.user_id = userId))
  { total_vehicles := rows.length
    avg_margin :=
      if rows.isEmpty then none
      else some (roundHalfAway ((rows.map margin).sum * 10000) rows.length)
    total_margin := if rows.isEmpty then none else some (rows.map margin).sum }

/-- The string the driver returns for a `DECIMAL` with `scale` digits after the
point whose digits, point removed, are `unscaled`. -/
def decimalString (scale : Nat) (unscaled : Int) : String :=
  let whole := toString (unscaled.natAbs / 10 ^ scale)
  let part := toString (unscaled.natAbs % 10 ^ scale)
  (if unscaled < 0 then "-" else "") ++ whole ++ "." ++
    String.mk (List.replicate (scale - part.length) (Char.ofNat 48)) ++ part

/-! ## Authorization guard -/

/-- The expression `authHeader && authHeader.split(' ')[1]`; `none` is `undefined`. -/
def bearerToken (authHeader : Option String) : Option String :=
  match authHeader with
  | none => none
  | some h => if h = "" then some "" else ((splitOnSpace h.toList)[1]?).map String.mk

/-- The middleware `authenticateToken`, with `res` the way to answer and `next`
the rest of the route. -/
def authenticateToken {α β : Type} (E : Services) (now : Nat) (req : Request β)
    (res : Response → α) (next : Request β → α) : α :=
  match bearerToken req.authorization with
  | none => res (failure 401 "Token de acesso requerido")
  | some token =>
    if token = "" then res (failure 401 "Token de acesso requerido")
    else
      match E.verify token now with
      | none => res (failure 403 "Token inválido")
      | some user => next { req with user := some user }

/-- A route registered as `app.METHOD(path, authenticateToken, handler)`. -/
def guarded {β : Type} (E : Services) (now : Nat) (s : Store) (req : Request β)
    (handler : Request β → Outcome) : Outcome :=
  authenticateToken E now req (fun r => ⟨r, s, []⟩) handler

/-- Whether the guard hands the request on: `true` when `next` runs, `false` when it answers itself. -/
def admitted {β : Type} (E : Services) (now : Nat) (req : Request β) : Bool :=
  authenticateToken E now req (fun _ => false) (fun _ => true)

/-- The requests `next` is called with, one entry per call. -/
def nextCalls {β : Type} (E : Services) (now : Nat) (req : Request β) : List (Request β) :=
  authenticateToken E now req (fun _ => []) (fun r => [r])

/-! ## Authentication routes -/

/-- Body of `POST /api/login`. -/
structure LoginBody where
  email : Option String
  password : Option String

/-- Body of `POST /api/register`. -/
structure RegisterBody where
  name : Option String
  email : Option String
  password : Option String

/-- The object `{ id, name, email }` of the login and register responses. -/
def userSummary (id : Nat) (name email : String) : Json :=
  .obj [("id", .num id), ("name", .str name), ("email", .str email)]

/-- The object `{ success: true, user, token }`. -/
def authBody (id : Nat) (name email token : String) : Json :=
  .obj [("success", .bool true), ("user", userSummary id name email), ("token", .str token)]

/-- Handler of `POST /api/login`. -/
def login (E : Services) (now : Nat) (s : Store) (body : LoginBody) : Outcome :=
  match body.email, body.password with
  | some email, some password =>
    if email = "" ∨ password = "" then
      ⟨failure 400 "Email e senha são obrigatórios", s, []⟩
    else
      match (selectUsersByEmail E s (some email)).head? with
      | none => ⟨failure 401 "Email ou senha incorretos", s, [Sql.selectUserByEmail]⟩
      | some user =>
        if E.compare password user.password then
          ⟨⟨200, authBody user.id user.name user.email (E.sign ⟨user.id, user.email⟩ now)⟩,
            s, [Sql.selectUserByEmail]⟩
        else ⟨failure 401 "Email ou senha incorretos", s, [Sql.selectUserByEmail]⟩
  | _, _ => ⟨failure 400 "Email e senha são obrigatórios", s, []⟩

/-- Handler of `POST /api/register`. -/
def register (E : Services) (now salt : Nat) (s : Store) (body : RegisterBody) : Outcome :=
  match body.name, body.email, body.password with
  | some name, some email, some password =>
    if name = "" ∨ email = "" ∨ password = "" then
      ⟨failure 400 "Nome, email e senha são obrigatórios", s, []⟩
    else if jsLength password < 6 then
      ⟨failure 400 "Senha deve ter pelo menos 6 caracteres", s, []⟩
    else if 0 < (selectUserIdsByEmail E s (some email)).length then
      ⟨failure 400 "Email já está em uso", s, [Sql.selectUserIdByEmail]⟩
    else
      match insertUser E s name email (E.hash password salt) now with
      | none =>
        ⟨failure 500 "Erro interno do servidor", s, [Sql.selectUserIdByEmail, Sql.insertUser]⟩
      | some (insertId, s1) =>
        ⟨⟨201, authBody insertId name email (E.sign ⟨insertId, email⟩ now)⟩,
          s1, [Sql.selectUserIdByEmail, Sql.insertUser]⟩
  | _, _, _ => ⟨failure 400 "Nome, email e senha são obrigatórios", s, []⟩

/-- The store after a run of `POST /api/register` calls, each with its instant, salt and body. -/
def registerAll (E : Services) (s : Store) : List (Nat × Nat × RegisterBody) → Store
  | [] => s
  | (now, salt, body) :: rest => registerAll E (register E now salt s body).store rest

/-! ## Vehicle routes -/

/-- Body of `POST /api/vehicles` and `PUT /api/vehicles/:id`. -/
structure VehicleBody where
  marca : JsValue
  modelo : JsValue
  ano : JsValue
  fipe : JsValue
  valorCompra : JsValue
  impostos : JsValue
  valorVenda : JsValue

/-- A `vehicles` row as the driver returns it. -/
def VehicleRow.toJson (v : VehicleRow) : Json :=
  .obj [("id", .num v.id), ("user_id", .num v.user_id), ("marca", .str v.marca),
    ("modelo", .str v.modelo), ("ano", .str v.ano), ("fipe", .str (decimalString 2 v.fipe)),
    ("valor_compra", .str (decimalString 2 v.valor_compra)),
    ("impostos", .str (decimalString 2 v.impostos)),
    ("valor_venda", .str (decimalString 2 v.valor_venda)),
    ("observacoes", match v.observacoes with
      | some t => .str t
      | none => .null),
    ("created_at", .num v.created_at), ("updated_at", .num v.updated_at)]

/-- The guard `!marca || !modelo || !valorCompra || !valorVenda`. -/
def missingRequired (b : VehicleBody) : Bool :=
  !truthy b.marca || !truthy b.modelo || !truthy b.valorCompra || !truthy b.valorVenda

/-- Handler of `GET /api/vehicles`. -/
def listVehicles {β : Type} (s : Store) (req : Request β) : Outcome :=
  match req.user with
  | none => ⟨failure 500 "Erro ao buscar veículos", s, []⟩
  | some user =>
    ⟨⟨200, .obj [("success", .bool true),
        ("vehicles", .arr ((selectVehiclesByUser s user.id).map VehicleRow.toJson))]⟩,
      s, [Sql.selectVehiclesByUser]⟩

/-- Handler of `POST /api/vehicles`. -/
def createVehicle (E : Services) (now : Nat) (s : Store) (req : Request VehicleBody) : Outcome :=
  if missingRequired req.body then
    ⟨failure 400 "Marca, modelo, valor de compra e valor de venda são obrigatórios", s, []⟩
  else
    match req.user with
    | none => ⟨failure 500 "Erro ao salvar veículo", s, []⟩
    | some user =>
      match insertVehicle E s user.id req.body.marca req.body.modelo
          (jsOr req.body.ano (.string "")) (jsOr req.body.fipe (.number 0)) req.body.valorCompra
          (jsOr req.body.impostos (.number 0)) req.body.valorVenda now with
      | none => ⟨failure 500 "Erro ao salvar veículo", s, [Sql.insertVehicle]⟩
      | some (insertId, s1) =>
        match (selectVehicleById s1 insertId).head? with
        | some row =>
          ⟨⟨201, .obj [("success", .bool true), ("vehicle", row.toJson)]⟩,
            s1, [Sql.insertVehicle, Sql.selectVehicleById]⟩
        | none =>
          ⟨⟨201, .obj [("success", .bool true)]⟩, s1, [Sql.insertVehicle, Sql.selectVehicleById]⟩

/-- Handler of `GET /api/vehicles/:id`. -/
def getVehicle {β : Type} (E : Services) (s : Store) (req : Request β) : Outcome :=
  match req.user with
  | none => ⟨failure 500 "Erro ao buscar veículo", s, []⟩
  | some user =>
    match (selectVehicleByIdAndUser E s req.id user.id).head? with
    | none => ⟨failure 404 "Veículo não encontrado", s, [Sql.selectVehicleByIdAndUser]⟩
    | some row =>
      ⟨⟨200, .obj [("success", .bool true), ("vehicle", row.toJson)]⟩,
        s, [Sql.selectVehicleByIdAndUser]⟩

/-- Handler of `PUT /api/vehicles/:id`. -/
def putVehicle (E : Services) (now : Nat) (s : Store) (req : Request VehicleBody) : Outcome :=
  if missingRequired req.body then
    ⟨failure 400 "Marca, modelo, valor de compra e valor de venda são obrigatórios", s, []⟩
  else
    match req.user with
    | none => ⟨failure 500 "Erro ao atualizar veículo", s, []⟩
    | some user =>
      match updateVehicle E s req.body.marca req.body.modelo
          (jsOr req.body.ano (.string "")) (jsOr req.body.fipe (.number 0)) req.body.valorCompra
          (jsOr req.body.impostos (.number 0)) req.body.valorVenda req.id user.id now with
      | none => ⟨failure 500 "Erro ao atualizar veículo", s, [Sql.updateVehicle]⟩
      | some (affectedRows, s1) =>
        if affectedRows = 0 then
          ⟨failure 404 "Veículo não encontrado", s1, [Sql.updateVehicle]⟩
        else
          ⟨⟨200, .obj [("success", .bool true), ("message", .str "Veículo atualizado com sucesso")]⟩,
            s1, [Sql.updateVehicle]⟩

/-- Handler of `DELETE /api/vehicles/:id`. -/
def removeVehicle {β : Type} (E : Services) (s : Store) (req : Request β) : Outcome :=
  match req.user with
  | none => ⟨failure 500 "Erro ao excluir veículo", s, []⟩
  | some user =>
    if (deleteVehicle E s req.id user.id).1 = 0 then
      ⟨failure 404 "Veículo não encontrado", (deleteVehicle E s req.id user.id).2,
        [Sql.deleteVehicle]⟩
    else
      ⟨⟨200, .obj [("success", .bool true), ("message", .str "Veículo excluído com sucesso")]⟩,
        (deleteVehicle E s req.id user.id).2, [Sql.deleteVehicle]⟩

/-! ## Dashboard route -/

/-- A decimal aggregate of the given scale as the driver returns it: a string,
or `null` for SQL `NULL`. -/
def nullable (scale : Nat) : Option Int → Json
  | some x => .str (decimalString scale x)
  | none => .null

/-- The row `{ total_vehicles, avg_margin, total_margin }`. -/
def Stats.toJson (t : Stats) : Json :=
  .obj [("total_vehicles", .num t.total_vehicles), ("avg_margin", nullable 6 t.avg_margin),
    ("total_margin", nullable 2 t.total_margin)]

/-- Handler of `GET /api/dashboard`. -/
def dashboard {β : Type} (s : Store) (req : Request β) : Outcome :=
  match req.user with
  | none => ⟨failure 500 "Erro ao buscar estatísticas", s, []⟩
  | some user =>
    ⟨⟨200, .obj [("success", .bool true), ("stats", (selectDashboard s user.id).toJson)]⟩,
      s, [Sql.selectDashboard]⟩

/-! ## Routes as registered -/

/-- Route `GET /api/vehicles`. -/
def apiListVehicles (E : Services) (now : Nat) (s : Store) (req : Request Unit) : Outcome :=
  guarded E now s req (listVehicles s)

/-- Route `POST /api/vehicles`. -/
def apiCreateVehicle (E : Services) (now : Nat) (s : Store) (req : Request VehicleBody) : Outcome :=
  guarded E now s req (createVehicle E now s)

/-- Route `GET /api/vehicles/:id`. -/
def apiGetVehicle (E : Services) (now : Nat) (s : Store) (req : Request Unit) : Outcome :=
  guarded E now s req (getVehicle E s)

/-- Route `PUT /api/vehicles/:id`. -/
def apiPutVehicle (E : Services) (now : Nat) (s : Store) (req : Request VehicleBody) : Outcome :=
  guarded E now s req (putVehicle E now s)

/-- Route `DELETE /api/vehicles/:id`. -/
def apiDeleteVehicle (E : Services) (now : Nat) (s : Store) (req : Request Unit) : Outcome :=
  guarded E now s req (removeVehicle E s)

/-- Route `GET /api/dashboard`. -/
def apiDashboard (E : Services) (now : Nat) (s : Store) (req : Request Unit) : Outcome :=
  guarded E now s req (dashboard s)

/-! ## Sample data -/

/-- Sample services: the token `tok1` belongs to user 1 and `tok2` to user 2; a
password verifies against its own hash; the server is strict; the collation
ignores the case of the letters `A` to `Z`; strings are texts; whole numbers,
as numbers or as strings of digits, are amounts. -/
def sampleServices : Services where
  hash := fun p _ => p
  compare := fun p h => decide (p = h)
  sign := fun c _ => if c.id = 1 then "tok1" else "tok2"
  verify := fun t _ =>
    if t = "tok1" then some ⟨1, "ana@autogiro.com"⟩
    else if t = "tok2" then some ⟨2, "bia@autogiro.com"⟩
    else none
  strict := true
  collationKey := fun t => String.mk (t.toList.map Char.toLower)
  toText := fun v =>
    match v with
    | .string t => some t
    | _ => none
  toDecimal := fun v =>
    match v with
    | .number x => if x.den = 1 then some (x.num * 100) else none
    | .string t =>
      if t ≠ "" ∧ t.toList.all Char.isDigit then
        some ((t.toList.foldl (fun n c => 10 * n + (c.toNat - 48)) 0 : Nat) * 100)
      else none
    | _ => none
  paramId := fun p => if p = "1" then some 1 else if p = "2" then some 2 else none

/-- Sample services of a server that is not strict. -/
def laxServices : Services :=
  { sampleServices with strict := false }

/-- Sample user row. -/
def sampleUser (id : Nat) (name email password : String) : UserRow :=
  { id := id, name := name, email := email, password := password, role := Role.usuario,
    status := Status.ativo, created_at := 0, updated_at := 0 }

/-- Sample vehicle row with the given purchase value, taxes and sale value in
whole currency units. -/
def sampleVehicle (id userId : Nat) (compra impostos venda : Int) : VehicleRow :=
  { id := id, user_id := userId, marca := "Fiat", modelo := "Uno", ano := "2012", fipe := 0,
    valor_compra := compra * 100, impostos := impostos * 100, valor_venda := venda * 100,
    observacoes := none, created_at := id, updated_at := id }

/-- Sample store: users 1 and 2; user 1 owns vehicles 1 and 2, user 2 owns none. -/
def sampleStore : Store :=
  { users := [sampleUser 1 "Ana" "ana@autogiro.com" "segredo1",
              sampleUser 2 "Bia" "bia@autogiro.com" "segredo2"]
    vehicles := [sampleVehicle 1 1 100 10 150, sampleVehicle 2 1 200 20 300]
    nextUserId := 3
    nextVehicleId := 3 }

/-- Sample request without body. -/
def sampleRequest (authorization : Option String) (id : String) (user : Option Claims) :
    Request Unit :=
  { authorization := authorization, id := id, body := (), user := user }

/-- Sample vehicle body with the given purchase value. -/
def sampleBody (valorCompra : JsValue) : VehicleBody :=
  { marca := .string "Fiat", modelo := .string "Uno", ano := .string "2012", fipe := .undefined,
    valorCompra := valorCompra, impostos := .number 10, valorVenda := .number 150 }

/-- Sample request with a vehicle body. -/
def sampleVehicleRequest (id : String) (body : VehicleBody) (user : Option Claims) :
    Request VehicleBody :=
  { authorization := some "Bearer tok", id := id, body := body, user := user }

/-- Sample registration body. -/
def sampleRegistration : RegisterBody :=
  { name := some "Eva", email := some "eva@autogiro.com", password := some "segredo9" }

/-- Sample store for the average: user 1 owns three vehicles, each with margin
0.33, 0.33 and 0.34, a total of 1.00. -/
def thirdsStore : Store :=
  { users := [sampleUser 1 "Ana" "ana@autogiro.com" "segredo1"]
    vehicles :=
      [{ sampleVehicle 1 1 0 0 0 with valor_venda := 33 },
       { sampleVehicle 2 1 0 0 0 with valor_venda := 33 },
       { sampleVehicle 3 1 0 0 0 with valor_venda := 34 }]
    nextUserId := 2
    nextVehicleId := 4 }

/-- Sample name of 300 letters. -/
def longName : String :=
  String.mk (List.replicate 300 (Char.ofNat 97))

/-! ## Login and registration -/

theorem selectUsersByEmail_eq_nil (E : Services) (s : Store) (email : String)
    (h : ∀ u ∈ s.users, E.collationKey u.email ≠ E.collationKey email) :
    selectUsersByEmail E s (some email) = [] := by
  rw [selectUsersByEmail, List.filter_eq_nil_iff]
  intro u hu
  simpa using h u hu

theorem head_filter_email_of_nodup (E : Services) (users : List UserRow) (u : UserRow)
    (hnodup : (users.map (fun r => E.collationKey r.email)).Nodup) (hu : u ∈ users) :
    (users.filter (fun r =>
        decide (some (E.collationKey r.email) = (some u.email).map E.collationKey))).head? =
      some u := by
  induction users with
  | nil => simp at hu
  | cons a l ih =>
    rw [List.map_cons, List.nodup_cons] at hnodup
    rcases List.mem_cons.mp hu with h | h
    · subst h
      simp [List.filter_cons]
    · have hne : E.collationKey a.email ≠ E.collationKey u.email := by
        intro heq
        apply hnodup.1
        rw [heq]
        exact List.mem_map_of_mem (fun r => E.collationKey r.email) h
      have hne2 : ¬ (some (E.collationKey a.email) = (some u.email).map E.collationKey) :=
        fun heq => hne (Option.some.inj heq)
      simp only [List.filter_cons, hne2, decide_False, Bool.false_eq_true, if_false]
      exact ih hnodup.2 h

theorem login_unknown_email (E : Services) (now : Nat) (s : Store) (email password : String)
    (he : email ≠ "") (hp : password ≠ "")
    (h : ∀ u ∈ s.users, E.collationKey u.email ≠ E.collationKey email) :
    login E now s ⟨some email, some password⟩ =
      ⟨failure 401 "Email ou senha incorretos", s, [Sql.selectUserByEmail]⟩ := by
  simp [login, he, hp, selectUsersByEmail_eq_nil E s email h]

theorem login_wrong_password (E : Services) (now : Nat) (s : Store) (u : UserRow)
    (password : String) (he : u.email ≠ "") (hp : password ≠ "")
    (hnodup : (s.users.map (fun r => E.collationKey r.email)).Nodup) (hu : u ∈ s.users)
    (hbad : E.compare password u.password = false) :
    login E now s ⟨some u.email, some password⟩ =
      ⟨failure 401 "Email ou senha incorretos", s, [Sql.selectUserByEmail]⟩ := by
  have hhead : (selectUsersByEmail E s (some u.email)).head? = some u :=
    head_filter_email_of_nodup E s.users u hnodup hu
  simp only [login, he, hp, or_self, if_false, hhead, hbad, Bool.false_eq_true]

/-- C2, as stated, fails: with an empty password for an existing email the
answer is 400, while an unknown email with a non-empty password is answered 401. -/
theorem login_empty_password_differs :
    ¬ (∀ (E : Services) (now : Nat) (s : Store) (e1 p1 p : String) (u : UserRow),
        (∀ r ∈ s.users, E.collationKey r.email ≠ E.collationKey e1) → p1 ≠ "" →
        u ∈ s.users → E.compare p u.password = false →
        (login E now s ⟨some e1, some p1⟩).response.status = 401 ∧
        (login E now s ⟨some u.email, some p⟩).response.status = 401) := by
  intro h
  have h1 := (h sampleServices 0 sampleStore "eva@autogiro.com" "segredo9" ""
    (sampleUser 1 "Ana" "ana@autogiro.com" "segredo1") (by decide) (by decide) (by decide)
    (by decide)).2
  revert h1
  decide

/-- C2, amended: in a store whose emails are distinct under the comparison of
the column, for a non-empty email that equals no stored email under that
comparison with any non-empty password, and for the non-empty email of an
existing user with a non-empty password that does not verify against that
user's stored hash, login answers alike: status 401, the body with `success`
false and the message `Email ou senha incorretos`, the store unchanged and the
one lookup issued. -/
theorem login_failures_indistinguishable (E : Services) (now : Nat) (s : Store)
    (e1 p1 p : String) (u : UserRow)
    (hunique : (s.users.map (fun r => E.collationKey r.email)).Nodup)
    (he1 : e1 ≠ "") (hfree : ∀ r ∈ s.users, E.collationKey r.email ≠ E.collationKey e1)
    (hp1 : p1 ≠ "") (hu : u ∈ s.users) (he2 : u.email ≠ "") (hp : p ≠ "")
    (hbad : E.compare p u.password = false) :
    login E now s ⟨some e1, some p1⟩ = login E now s ⟨some u.email, some p⟩ ∧
    (login E now s ⟨some e1, some p1⟩).response =
      ⟨401, Json.obj [("success", Json.bool false),
        ("message", Json.str "Email ou senha incorretos")]⟩ ∧
    (login E now s ⟨some u.email, some p⟩).response =
      ⟨401, Json.obj [("success", Json.bool false),
        ("message", Json.str "Email ou senha incorretos")]⟩ := by
  rw [login_unknown_email E now s e1 p1 he1 hp1 hfree,
    login_wrong_password E now s u p he2 hp hunique hu hbad]
  exact ⟨rfl, rfl, rfl⟩

theorem login_failures_indistinguishable_witness :
    ((sampleStore.users.map (fun r => sampleServices.collationKey r.email)).Nodup ∧
      "eva@autogiro.com" ≠ "" ∧
      (∀ r ∈ sampleStore.users,
        sampleServices.collationKey r.email ≠ sampleServices.collationKey "eva@autogiro.com") ∧
      "segredo9" ≠ "" ∧
      sampleUser 1 "Ana" "ana@autogiro.com" "segredo1" ∈ sampleStore.users ∧
      sampleServices.compare "errada" "segredo1" = false) ∧
    login sampleServices 0 sampleStore ⟨some "eva@autogiro.com", some "segredo9"⟩ =
      login sampleServices 0 sampleStore ⟨some "ana@autogiro.com", some "errada"⟩ :=
  ⟨by decide,
    (login_failures_indistinguishable sampleServices 0 sampleStore "eva@autogiro.com" "segredo9"
      "errada" (sampleUser 1 "Ana" "ana@autogiro.com" "segredo1") (by decide) (by decide)
      (by decide) (by decide) (by decide) (by decide) (by decide) (by decide)).1⟩

theorem storeVarchar_of_le (E : Services) (width : Nat) (t : String) (h : t.length ≤ width) :
    storeVarchar E width t = some t := by
  simp [storeVarchar, h]

theorem any_key_eq_false (E : Services) (users : List UserRow) (email : String)
    (h : ∀ u ∈ users, E.collationKey u.email ≠ E.collationKey email) :
    users.any (fun u => decide (E.collationKey u.email = E.collationKey email)) = false := by
  rw [List.any_eq_false]
  intro u hu
  simpa using h u hu

theorem register_of_valid (E : Services) (now salt : Nat) (s : Store)
    (name email password : String) (hname : name ≠ "") (hemail : email ≠ "")
    (hlen : 6 ≤ jsLength password)
    (hfresh : ∀ u ∈ s.users, E.collationKey u.email ≠ E.collationKey email)
    (hwn : name.length ≤ 255) (hwe : email.length ≤ 255)
    (hwp : (E.hash password salt).length ≤ 255) :
    register E now salt s ⟨some name, some email, some password⟩ =
      ⟨⟨201, authBody s.nextUserId name email (E.sign ⟨s.nextUserId, email⟩ now)⟩,
        { s with
          users := s.users ++
            [{ id := s.nextUserId, name := name, email := email,
               password := E.hash password salt, role := Role.usuario, status := Status.ativo,
               created_at := now, updated_at := now }]
          nextUserId := s.nextUserId + 1 },
        [Sql.selectUserIdByEmail, Sql.insertUser]⟩ := by
  have hpw : password ≠ "" := by
    intro h
    subst h
    simp [jsLength] at hlen
  have hlt : ¬ jsLength password < 6 := by omega
  simp only [register, hname, hemail, hpw, or_self, if_false, hlt, selectUserIdsByEmail,
    selectUsersByEmail_eq_nil E s email hfresh, List.map_nil, List.length_nil, lt_irrefl,
    insertUser, storeVarchar_of_le E 255 name hwn, storeVarchar_of_le E 255 email hwe,
    storeVarchar_of_le E 255 _ hwp, any_key_eq_false E s.users email hfresh, Bool.false_eq_true]

set_option maxRecDepth 20000 in
/-- C5, as stated, fails: a registration with a name of 300 letters, a fresh
email and a password of eight letters meets every condition of the claim, but
the name does not fit the `VARCHAR(255)` column. A strict server rejects the
`INSERT` and the answer is 500. A server that is not strict answers 201 with the
name as sent and stores 255 letters, so the login afterwards returns a summary
with another name. -/
theorem register_long_name_fails :
    ¬ (∀ (E : Services) (now salt : Nat) (s : Store) (name email password : String),
        name ≠ "" → email ≠ "" → 6 ≤ jsLength password →
        (∀ u ∈ s.users, E.collationKey u.email ≠ E.collationKey email) →
        E.compare password (E.hash password salt) = true →
        (register E now salt s ⟨some name, some email, some password⟩).response.status = 201 ∧
        (login E (now + 1) (register E now salt s ⟨some name, some email, some password⟩).store
            ⟨some email, some password⟩).response.body.get "user" =
          (register E now salt s ⟨some name, some email, some password⟩).response.body.get
            "user") ∧
    (register laxServices 0 7 sampleStore
        ⟨some longName, some "eva@autogiro.com", some "segredo9"⟩).response.body.get "user" =
      some (userSummary 3 longName "eva@autogiro.com") ∧
    (login laxServices 1
        (register laxServices 0 7 sampleStore
          ⟨some longName, some "eva@autogiro.com", some "segredo9"⟩).store
        ⟨some "eva@autogiro.com", some "segredo9"⟩).response.body.get "user" =
      some (userSummary 3 (String.mk (List.replicate 255 (Char.ofNat 97))) "eva@autogiro.com") ∧
    longName ≠ String.mk (List.replicate 255 (Char.ofNat 97)) := by
  refine ⟨?_, ?_, ?_, ?_⟩
  · intro h
    have h1 := (h sampleServices 0 7 sampleStore longName "eva@autogiro.com" "segredo9"
      (by decide) (by decide) (by decide) (by decide) (by decide)).1
    revert h1
    decide
  · rfl
  · rfl
  · decide

/-- C5, amended: a registration with non-empty name and email of at most 255
characters each, a password of at least six UTF-16 code units and an email that
equals no stored email under the comparison of the column is answered 201 with
the body `success`, `user`, `token`, where `user` has exactly the properties
`id`, `name`, `email` (the new id and the name and email as sent) and so no
password hash; provided the hashing service verifies the password against its
own hash and the hash has at most 255 characters, a login with the same email
and password on the resulting store is answered 200 with `success` true and the
same `user` object. -/
theorem register_then_login (E : Services) (now salt : Nat) (s : Store)
    (name email password : String) (hname : name ≠ "") (hemail : email ≠ "")
    (hlen : 6 ≤ jsLength password)
    (hfresh : ∀ u ∈ s.users, E.collationKey u.email ≠ E.collationKey email)
    (hwn : name.length ≤ 255) (hwe : email.length ≤ 255)
    (hwp : (E.hash password salt).length ≤ 255)
    (hverify : E.compare password (E.hash password salt) = true) :
    (register E now salt s ⟨some name, some email, some password⟩).response.status = 201 ∧
    (register E now salt s ⟨some name, some email, some password⟩).response.body.keys =
      ["success", "user", "token"] ∧
    (register E now salt s ⟨some name, some email, some password⟩).response.body.get "success" =
      some (Json.bool true) ∧
    (register E now salt s ⟨some name, some email, some password⟩).response.body.get "user" =
      some (Json.obj [("id", Json.num s.nextUserId), ("name", Json.str name),
        ("email", Json.str email)]) ∧
    (∀ now2 : Nat,
      (login E now2 (register E now salt s ⟨some name, some email, some password⟩).store
          ⟨some email, some password⟩).response.status = 200 ∧
      (login E now2 (register E now salt s ⟨some name, some email, some password⟩).store
          ⟨some email, some password⟩).response.body.get "success" = some (Json.bool true) ∧
      (login E now2 (register E now salt s ⟨some name, some email, some password⟩).store
          ⟨some email, some password⟩).response.body.get "user" =
        (register E now salt s ⟨some name, some email, some password⟩).response.body.get
          "user") := by
  have hpw : password ≠ "" := by
    intro h
    subst h
    simp [jsLength] at hlen
  rw [register_of_valid E now salt s name email password hname hemail hlen hfresh hwn hwe hwp]
  refine ⟨rfl, rfl, ?_, ?_, ?_⟩
  · simp [Json.get, authBody]
  · simp [Json.get, authBody, userSummary]
  · intro now2
    have hnil : s.users.filter (fun u =>
        decide (some (E.collationKey u.email) = some (E.collationKey email))) = [] := by
      rw [List.filter_eq_nil_iff]
      intro u hu
      simpa using hfresh u hu
    have hlogin : login E now2
        { s with
          users := s.users ++
            [{ id := s.nextUserId, name := name, email := email,
               password := E.hash password salt, role := Role.usuario, status := Status.ativo,
               created_at := now, updated_at := now }]
          nextUserId := s.nextUserId + 1 } ⟨some email, some password⟩ =
        ⟨⟨200, authBody s.nextUserId name email (E.sign ⟨s.nextUserId, email⟩ now2)⟩,
          { s with
            users := s.users ++
              [{ id := s.nextUserId, name := name, email := email,
                 password := E.hash password salt, role := Role.usuario, status := Status.ativo,
                 created_at := now, updated_at := now }]
            nextUserId := s.nextUserId + 1 },
          [Sql.selectUserByEmail]⟩ := by
      simp only [login, hemail, hpw, or_self, if_false, selectUsersByEmail, List.filter_append,
        hnil, List.nil_append, List.filter_cons, Option.map_some', decide_True, if_true,
        List.filter_nil, List.head?_cons, hverify]
    rw [hlogin]
    refine ⟨rfl, ?_, ?_⟩
    · simp [Json.get, authBody]
    · simp [Json.get, authBody, userSummary]

theorem register_then_login_witness :
    ("Eva" ≠ "" ∧ "eva@autogiro.com" ≠ "" ∧ 6 ≤ jsLength "segredo9" ∧
      (∀ u ∈ sampleStore.users,
        sampleServices.collationKey u.email ≠ sampleServices.collationKey "eva@autogiro.com") ∧
      "Eva".length ≤ 255 ∧ "eva@autogiro.com".length ≤ 255 ∧
      (sampleServices.hash "segredo9" 7).length ≤ 255 ∧
      sampleServices.compare "segredo9" (sampleServices.hash "segredo9" 7) = true) ∧
    (login sampleServices 1 (register sampleServices 0 7 sampleStore sampleRegistration).store
        ⟨some "eva@autogiro.com", some "segredo9"⟩).response.status = 200 :=
  ⟨by decide,
    ((register_then_login sampleServices 0 7 sampleStore "Eva" "eva@autogiro.com" "segredo9"
      (by decide) (by decide) (by decide) (by decide) (by decide) (by decide) (by decide)
      (by decide)).2.2.2.2 1).1⟩

theorem insertUser_cases (E : Services) (s : Store) (name email password : String) (now : Nat) :
    insertUser E s name email password now = none ∨
    ∃ n e p, (∀ u ∈ s.users, E.collationKey u.email ≠ E.collationKey e) ∧
      insertUser E s name email password now =
        some (s.nextUserId,
          { s with
            users := s.users ++
              [{ id := s.nextUserId, name := n, email := e, password := p,
                 role := Role.usuario, status := Status.ativo, created_at := now,
                 updated_at := now }]
            nextUserId := s.nextUserId + 1 }) := by
  unfold insertUser
  split
  · rename_i n e p _ _ _
    by_cases h : s.users.any (fun u => decide (E.collationKey u.email = E.collationKey e)) = true
    · left
      simp [h]
    · right
      refine ⟨n, e, p, ?_, by simp [h]⟩
      intro u hu heq
      apply h
      rw [List.any_eq_true]
      exact ⟨u, hu, by simpa using heq⟩
  · left
    rfl

theorem register_store_cases (E : Services) (now salt : Nat) (s : Store) (body : RegisterBody) :
    (register E now salt s body).store = s ∨
    ∃ name email password, (∀ u ∈ s.users, E.collationKey u.email ≠ E.collationKey email) ∧
      (register E now salt s body).store =
        { s with
          users := s.users ++
            [{ id := s.nextUserId, name := name, email := email, password := password,
               role := Role.usuario, status := Status.ativo, created_at := now,
               updated_at := now }]
          nextUserId := s.nextUserId + 1 } := by
  unfold register
  split
  · rename_i name email password _ _ _
    split
    · left; rfl
    · split
      · left; rfl
      · split
        · left; rfl
        · rcases insertUser_cases E s name email (E.hash password salt) now with
            h | ⟨n, e, p, hf, h⟩
          · rw [h]
            left; rfl
          · rw [h]
            right
            exact ⟨n, e, p, hf, rfl⟩
  · left; rfl

theorem register_keeps_emails_distinct (E : Services) (now salt : Nat) (s : Store)
    (body : RegisterBody) (h : (s.users.map (fun r => r.email)).Nodup) :
    ((register E now salt s body).store.users.map (fun r => r.email)).Nodup := by
  rcases register_store_cases E now salt s body with h1 | ⟨name, email, password, hfresh, h1⟩
  · rw [h1]
    exact h
  · rw [h1]
    simp only [List.map_append, List.map_cons, List.map_nil]
    rw [List.nodup_append]
    refine ⟨h, List.nodup_singleton _, ?_⟩
    intro a ha hb
    rw [List.mem_singleton] at hb
    subst hb
    obtain ⟨u, hu, hue⟩ := List.mem_map.mp ha
    exact hfresh u hu (congrArg E.collationKey hue)

theorem registerAll_keeps_emails_distinct (E : Services)
    (calls : List (Nat × Nat × RegisterBody)) :
    ∀ s : Store, (s.users.map (fun r => r.email)).Nodup →
      ((registerAll E s calls).users.map (fun r => r.email)).Nodup := by
  induction calls with
  | nil =>
    intro s h
    exact h
  | cons c rest ih =>
    intro s h
    obtain ⟨now, salt, body⟩ := c
    exact ih _ (register_keeps_emails_distinct E now salt s body h)

/-- C6: a registration whose email is already the email of a stored user is
answered 400 with `success` false and the store unchanged, no `INSERT` being
issued; when name, email and password pass the presence and length checks the
message is `Email já está em uso`. With distinct stored emails the number of
users with that email is one before and after, and every run of register calls
from a store with distinct emails ends in a store with distinct emails. -/
theorem duplicate_email_rejected (E : Services) (s : Store) :
    (∀ (now salt : Nat) (body : RegisterBody) (email : String), body.email = some email →
      (∃ u ∈ s.users, u.email = email) →
      (register E now salt s body).response.status = 400 ∧
      (register E now salt s body).response.body.get "success" = some (Json.bool false) ∧
      (register E now salt s body).store = s ∧
      Sql.insertUser ∉ (register E now salt s body).trace ∧
      (∀ name password, body.name = some name → name ≠ "" → email ≠ "" →
        body.password = some password → 6 ≤ jsLength password →
        register E now salt s body =
          ⟨failure 400 "Email já está em uso", s, [Sql.selectUserIdByEmail]⟩) ∧
      ((s.users.map (fun r => r.email)).Nodup →
        ((register E now salt s body).store.users.map (fun r => r.email)).count email = 1)) ∧
    ((s.users.map (fun r => r.email)).Nodup →
      ∀ calls : List (Nat × Nat × RegisterBody),
        ((registerAll E s calls).users.map (fun r => r.email)).Nodup) := by
  constructor
  · intro now salt body email hbody hstored
    obtain ⟨u, hu, hue⟩ := hstored
    have hpos : 0 < (selectUserIdsByEmail E s (some email)).length := by
      rw [selectUserIdsByEmail, List.length_map, List.length_pos_iff_exists_mem]
      refine ⟨u, ?_⟩
      rw [selectUsersByEmail, List.mem_filter]
      exact ⟨hu, by simp [hue]⟩
    have hcases : (register E now salt s body).response.status = 400 ∧
        (register E now salt s body).response.body.get "success" = some (Json.bool false) ∧
        (register E now salt s body).store = s ∧
        Sql.insertUser ∉ (register E now salt s body).trace := by
      obtain ⟨bname, bemail, bpassword⟩ := body
      simp only at hbody
      subst hbody
      cases bname with
      | none => simp [register, failure, Json.get]
      | some name =>
        cases bpassword with
        | none => simp [register, failure, Json.get]
        | some password =>
          simp only [register]
          split
          · simp [failure, Json.get]
          · split
            · simp [failure, Json.get]
            · simp [hpos, failure, Json.get]
    refine ⟨hcases.1, hcases.2.1, hcases.2.2.1, hcases.2.2.2, ?_, ?_⟩
    · intro name password hn hne hee hp hlen
      obtain ⟨bname, bemail, bpassword⟩ := body
      simp only at hbody hn hp
      subst hbody hn hp
      have hpw : password ≠ "" := by
        intro h
        subst h
        simp [jsLength] at hlen
      have hlt : ¬ jsLength password < 6 := by omega
      simp only [register, hne, hee, hpw, or_self, if_false, hlt, hpos, if_true]
    · intro hnodup
      rw [hcases.2.2.1]
      apply List.count_eq_one_of_mem hnodup
      rw [← hue]
      exact List.mem_map_of_mem (fun r => r.email) hu
  · intro hnodup calls
    exact registerAll_keeps_emails_distinct E calls s hnodup

theorem duplicate_email_rejected_witness :
    ((⟨some "Ana Dois", some "ana@autogiro.com", some "segredo3"⟩ : RegisterBody).email =
        some "ana@autogiro.com" ∧
      (∃ u ∈ sampleStore.users, u.email = "ana@autogiro.com")) ∧
    (register sampleServices 0 7 sampleStore
        ⟨some "Ana Dois", some "ana@autogiro.com", some "segredo3"⟩).store = sampleStore :=
  ⟨⟨rfl, by decide⟩,
    ((duplicate_email_rejected sampleServices sampleStore).1 0 7
      ⟨some "Ana Dois", some "ana@autogiro.com", some "segredo3"⟩ "ana@autogiro.com" rfl
      (by decide)).2.2.1⟩

/-! ## Splitting the authorization header -/

theorem splitOnSpace_word (w rest : List Char) (hw : ∀ c ∈ w, c ≠ Char.ofNat 32) :
    splitOnSpace (w ++ Char.ofNat 32 :: rest) = w :: splitOnSpace rest := by
  induction w with
  | nil => simp [splitOnSpace]
  | cons c w ih =>
    have hc : c ≠ Char.ofNat 32 := hw c (by simp)
    have hw2 : ∀ d ∈ w, d ≠ Char.ofNat 32 := fun d hd => hw d (by simp [hd])
    simp [splitOnSpace, hc, ih hw2]

theorem bearerToken_word (w rest : List Char) (hw : ∀ c ∈ w, c ≠ Char.ofNat 32) :
    bearerToken (some (String.mk (w ++ Char.ofNat 32 :: rest))) =
      (splitOnSpace rest).head?.map String.mk := by
  have hne : String.mk (w ++ Char.ofNat 32 :: rest) ≠ "" := by
    intro h
    have h2 := congrArg String.data h
    simp at h2
  simp only [bearerToken, if_neg hne, String.toList, splitOnSpace_word w rest hw]
  cases splitOnSpace rest <;> simp

/-! ## Authorization guard -/

theorem guarded_of_missing {β : Type} (E : Services) (now : Nat) (s : Store) (req : Request β)
    (handler : Request β → Outcome)
    (h : req.authorization = none ∨ bearerToken req.authorization = none ∨
      bearerToken req.authorization = some "") :
    guarded E now s req handler = ⟨failure 401 "Token de acesso requerido", s, []⟩ ∧
      nextCalls E now req = [] := by
  have h2 : bearerToken req.authorization = none ∨ bearerToken req.authorization = some "" := by
    rcases h with h | h | h
    · left; rw [h]; rfl
    · left; exact h
    · right; exact h
  rcases h2 with h | h <;> simp [guarded, nextCalls, authenticateToken, h]

theorem guarded_of_refused {β : Type} (E : Services) (now : Nat) (s : Store) (req : Request β)
    (handler : Request β → Outcome) (token : String)
    (ht : bearerToken req.authorization = some token) (hne : token ≠ "")
    (hv : E.verify token now = none) :
    guarded E now s req handler = ⟨failure 403 "Token inválido", s, []⟩ ∧
      nextCalls E now req = [] := by
  simp [guarded, nextCalls, authenticateToken, ht, hne, hv]

theorem guarded_of_verified {β : Type} (E : Services) (now : Nat) (s : Store) (req : Request β)
    (handler : Request β → Outcome) (token : String) (user : Claims)
    (ht : bearerToken req.authorization = some token) (hne : token ≠ "")
    (hv : E.verify token now = some user) :
    guarded E now s req handler = handler { req with user := some user } := by
  simp [guarded, authenticateToken, ht, hne, hv]

theorem nextCalls_of_verified {β : Type} (E : Services) (now : Nat) (req : Request β)
    (token : String) (user : Claims)
    (ht : bearerToken req.authorization = some token) (hne : token ≠ "")
    (hv : E.verify token now = some user) :
    nextCalls E now req = [{ req with user := some user }] := by
  simp [nextCalls, authenticateToken, ht, hne, hv]

/-- C7: on each of the six protected routes (vehicle list, create, get, update,
delete, and dashboard), a request whose header is absent or carries no token is
answered 401, and one whose token fails verification is answered 403; in both
cases `next` is not called, the store is untouched and no statement is issued.
When verification succeeds, `next` is called exactly once with the decoded
claims attached as `req.user`, and each route is what its own handler makes of
that request. -/
theorem guard_rejects_before_handler (E : Services) (now : Nat) (s : Store)
    (authorization : Option String) (id : String) (body : VehicleBody)
    (user0 : Option Claims) :
    ((authorization = none ∨ bearerToken authorization = none ∨
        bearerToken authorization = some "") →
      apiListVehicles E now s ⟨authorization, id, (), user0⟩ =
        ⟨failure 401 "Token de acesso requerido", s, []⟩ ∧
      apiCreateVehicle E now s ⟨authorization, id, body, user0⟩ =
        ⟨failure 401 "Token de acesso requerido", s, []⟩ ∧
      apiGetVehicle E now s ⟨authorization, id, (), user0⟩ =
        ⟨failure 401 "Token de acesso requerido", s, []⟩ ∧
      apiPutVehicle E now s ⟨authorization, id, body, user0⟩ =
        ⟨failure 401 "Token de acesso requerido", s, []⟩ ∧
      apiDeleteVehicle E now s ⟨authorization, id, (), user0⟩ =
        ⟨failure 401 "Token de acesso requerido", s, []⟩ ∧
      apiDashboard E now s ⟨authorization, id, (), user0⟩ =
        ⟨failure 401 "Token de acesso requerido", s, []⟩ ∧
      nextCalls E now (⟨authorization, id, (), user0⟩ : Request Unit) = [] ∧
      nextCalls E now (⟨authorization, id, body, user0⟩ : Request VehicleBody) = []) ∧
    (∀ token, bearerToken authorization = some token → token ≠ "" →
      E.verify token now = none →
      apiListVehicles E now s ⟨authorization, id, (), user0⟩ =
        ⟨failure 403 "Token inválido", s, []⟩ ∧
      apiCreateVehicle E now s ⟨authorization, id, body, user0⟩ =
        ⟨failure 403 "Token inválido", s, []⟩ ∧
      apiGetVehicle E now s ⟨authorization, id, (), user0⟩ =
        ⟨failure 403 "Token inválido", s, []⟩ ∧
      apiPutVehicle E now s ⟨authorization, id, body, user0⟩ =
        ⟨failure 403 "Token inválido", s, []⟩ ∧
      apiDeleteVehicle E now s ⟨authorization, id, (), user0⟩ =
        ⟨failure 403 "Token inválido", s, []⟩ ∧
      apiDashboard E now s ⟨authorization, id, (), user0⟩ =
        ⟨failure 403 "Token inválido", s, []⟩ ∧
      nextCalls E now (⟨authorization, id, (), user0⟩ : Request Unit) = [] ∧
      nextCalls E now (⟨authorization, id, body, user0⟩ : Request VehicleBody) = []) ∧
    (∀ token user, bearerToken authorization = some token → token ≠ "" →
      E.verify token now = some user →
      apiListVehicles E now s ⟨authorization, id, (), user0⟩ =
        listVehicles s (⟨authorization, id, (), some user⟩ : Request Unit) ∧
      apiCreateVehicle E now s ⟨authorization, id, body, user0⟩ =
        createVehicle E now s ⟨authorization, id, body, some user⟩ ∧
      apiGetVehicle E now s ⟨authorization, id, (), user0⟩ =
        getVehicle E s (⟨authorization, id, (), some user⟩ : Request Unit) ∧
      apiPutVehicle E now s ⟨authorization, id, body, user0⟩ =
        putVehicle E now s ⟨authorization, id, body, some user⟩ ∧
      apiDeleteVehicle E now s ⟨authorization, id, (), user0⟩ =
        removeVehicle E s (⟨authorization, id, (), some user⟩ : Request Unit) ∧
      apiDashboard E now s ⟨authorization, id, (), user0⟩ =
        dashboard s (⟨authorization, id, (), some user⟩ : Request Unit) ∧
      nextCalls E now (⟨authorization, id, (), user0⟩ : Request Unit) =
        [⟨authorization, id, (), some user⟩] ∧
      nextCalls E now (⟨authorization, id, body, user0⟩ : Request VehicleBody) =
        [⟨authorization, id, body, some user⟩]) := by
  refine ⟨?_, ?_, ?_⟩
  · intro h
    exact ⟨(guarded_of_missing E now s ⟨authorization, id, (), user0⟩ _ h).1,
      (guarded_of_missing E now s ⟨authorization, id, body, user0⟩ _ h).1,
      (guarded_of_missing E now s ⟨authorization, id, (), user0⟩ _ h).1,
      (guarded_of_missing E now s ⟨authorization, id, body, user0⟩ _ h).1,
      (guarded_of_missing E now s ⟨authorization, id, (), user0⟩ _ h).1,
      (guarded_of_missing E now s ⟨authorization, id, (), user0⟩ _ h).1,
      (guarded_of_missing E now s ⟨authorization, id, (), user0⟩ (dashboard s) h).2,
      (guarded_of_missing E now s ⟨authorization, id, body, user0⟩ (createVehicle E now s) h).2⟩
  · intro token ht hne hv
    exact ⟨(guarded_of_refused E now s ⟨authorization, id, (), user0⟩ _ token ht hne hv).1,
      (guarded_of_refused E now s ⟨authorization, id, body, user0⟩ _ token ht hne hv).1,
      (guarded_of_refused E now s ⟨authorization, id, (), user0⟩ _ token ht hne hv).1,
      (guarded_of_refused E now s ⟨authorization, id, body, user0⟩ _ token ht hne hv).1,
      (guarded_of_refused E now s ⟨authorization, id, (), user0⟩ _ token ht hne hv).1,
      (guarded_of_refused E now s ⟨authorization, id, (), user0⟩ _ token ht hne hv).1,
      (guarded_of_refused E now s ⟨authorization, id, (), user0⟩ (dashboard s) token ht hne hv).2,
      (guarded_of_refused E now s ⟨authorization, id, body, user0⟩ (createVehicle E now s) token
        ht hne hv).2⟩
  · intro token user ht hne hv
    exact ⟨guarded_of_verified E now s ⟨authorization, id, (), user0⟩ _ token user ht hne hv,
      guarded_of_verified E now s ⟨authorization, id, body, user0⟩ _ token user ht hne hv,
      guarded_of_verified E now s ⟨authorization, id, (), user0⟩ _ token user ht hne hv,
      guarded_of_verified E now s ⟨authorization, id, body, user0⟩ _ token user ht hne hv,
      guarded_of_verified E now s ⟨authorization, id, (), user0⟩ _ token user ht hne hv,
      guarded_of_verified E now s ⟨authorization, id, (), user0⟩ _ token user ht hne hv,
      nextCalls_of_verified E now ⟨authorization, id, (), user0⟩ token user ht hne hv,
      nextCalls_of_verified E now ⟨authorization, id, body, user0⟩ token user ht hne hv⟩

theorem guard_rejects_before_handler_witness :
    (none : Option String) = none ∧
    apiDeleteVehicle sampleServices 0 sampleStore ⟨none, "1", (), none⟩ =
      ⟨failure 401 "Token de acesso requerido", sampleStore, []⟩ ∧
    (bearerToken (some "Bearer nope") = some "nope" ∧ "nope" ≠ "" ∧
      sampleServices.verify "nope" 0 = none) ∧
    apiPutVehicle sampleServices 0 sampleStore
        ⟨some "Bearer nope", "1", sampleBody (.number 100), none⟩ =
      ⟨failure 403 "Token inválido", sampleStore, []⟩ ∧
    (bearerToken (some "Bearer tok2") = some "tok2" ∧ "tok2" ≠ "" ∧
      sampleServices.verify "tok2" 0 = some ⟨2, "bia@autogiro.com"⟩) ∧
    apiListVehicles sampleServices 0 sampleStore ⟨some "Bearer tok2", "1", (), none⟩ =
      listVehicles sampleStore
        (⟨some "Bearer tok2", "1", (), some ⟨2, "bia@autogiro.com"⟩⟩ : Request Unit) :=
  ⟨rfl,
    ((guard_rejects_before_handler sampleServices 0 sampleStore none "1"
      (sampleBody (.number 100)) none).1 (Or.inl rfl)).2.2.2.2.1,
    ⟨by decide, by decide, by decide⟩,
    ((guard_rejects_before_handler sampleServices 0 sampleStore (some "Bearer nope") "1"
      (sampleBody (.number 100)) none).2.1 "nope" (by decide) (by decide) (by decide)).2.2.2.1,
    ⟨by decide, by decide, by decide⟩,
    ((guard_rejects_before_handler sampleServices 0 sampleStore (some "Bearer tok2") "1"
      (sampleBody (.number 100)) none).2.2 "tok2" ⟨2, "bia@autogiro.com"⟩ (by decide)
      (by decide) (by decide)).1⟩

/-- C8, as stated, fails: a header whose scheme word is `Basic` in front of a
token that verifies is let through, although it is not of the form `Bearer <token>`. -/
theorem guard_admits_other_scheme :
    ¬ (∀ (E : Services) (now : Nat) (req : Request Unit), admitted E now req = true →
        ∃ token, req.authorization = some ("Bearer " ++ token)) := by
  intro h
  obtain ⟨token, ht⟩ :=
    h sampleServices 0 (sampleRequest (some "Basic tok1") "1" none) (by decide)
  have h2 : "Basic tok1" = "Bearer " ++ token := Option.some.inj ht
  have h3 := congrArg String.data h2
  simp at h3

/-- C8, amended: the guard hands a request on exactly when the second
space-separated piece of the authorization header is a non-empty token that
verification accepts; the word in front of the first space is not examined, so
any space-free word in place of `Bearer` gives the same decision. -/
theorem guard_ignores_scheme {β : Type} (E : Services) (now : Nat) (req : Request β) :
    (admitted E now req = true ↔
      ∃ header token, req.authorization = some header ∧
        (splitOnSpace header.toList)[1]? = some token ∧ token ≠ [] ∧
        (E.verify (String.mk token) now).isSome = true) ∧
    (∀ word rest : List Char, (∀ c ∈ word, c ≠ Char.ofNat 32) →
      admitted E now { req with authorization := some (String.mk (word ++ Char.ofNat 32 :: rest)) } =
        admitted E now
          { req with authorization := some (String.mk ("Bearer".toList ++ Char.ofNat 32 :: rest)) }) := by
  constructor
  · cases hreq : req.authorization with
    | none => simp [admitted, authenticateToken, bearerToken, hreq]
    | some header =>
      by_cases hempty : header = ""
      · subst hempty
        simp [admitted, authenticateToken, bearerToken, hreq, splitOnSpace]
      · simp only [String.toList]
        cases hseg : (splitOnSpace header.data)[1]? with
        | none => simp [admitted, authenticateToken, bearerToken, hreq, hempty, hseg]
        | some token =>
          have hmk : (String.mk token = "") ↔ token = [] := by
            constructor
            · intro h
              have := congrArg String.data h
              simpa using this
            · intro h
              subst h
              rfl
          by_cases htok : token = []
          · simp [admitted, authenticateToken, bearerToken, hreq, hempty, hseg, htok]
          · have hne : String.mk token ≠ "" := fun h => htok (hmk.mp h)
            cases hv : E.verify (String.mk token) now <;>
              simp [admitted, authenticateToken, bearerToken, hreq, hempty, hseg, htok, hne, hv]
  · intro word rest hw
    have hb : ∀ c ∈ "Bearer".toList, c ≠ Char.ofNat 32 := by decide
    simp only [admitted, authenticateToken, bearerToken_word word rest hw,
      bearerToken_word "Bearer".toList rest hb]

theorem guard_ignores_scheme_witness :
    (∀ c ∈ "Basic".toList, c ≠ Char.ofNat 32) ∧
    admitted sampleServices 0
        { sampleRequest none "1" none with
          authorization := some (String.mk ("Basic".toList ++ Char.ofNat 32 :: "tok1".toList)) } =
      admitted sampleServices 0
        { sampleRequest none "1" none with
          authorization := some (String.mk ("Bearer".toList ++ Char.ofNat 32 :: "tok1".toList)) } :=
  ⟨by decide,
    (guard_ignores_scheme sampleServices 0 (sampleRequest none "1" none)).2 "Basic".toList
      "tok1".toList (by decide)⟩

/-! ## Owner scoping of vehicles -/

theorem ownedBy_eq_false_of_other (E : Services) (s : Store) (v : VehicleRow) (p : String)
    (caller : Nat) (hpk : (s.vehicles.map (fun r => r.id)).Nodup) (hv : v ∈ s.vehicles)
    (hp : E.paramId p = some v.id) (hne : caller ≠ v.user_id) :
    ∀ w ∈ s.vehicles, ownedBy E p caller w = false := by
  intro w hw
  cases hown : ownedBy E p caller w with
  | false => rfl
  | true =>
    exfalso
    simp only [ownedBy, Bool.and_eq_true, decide_eq_true_eq] at hown
    obtain ⟨hid, huser⟩ := hown
    rw [hp] at hid
    have hwv : w = v :=
      List.inj_on_of_nodup_map hpk hw hv (Option.some.inj hid).symm
    rw [hwv] at huser
    exact hne huser.symm

theorem filter_ownedBy_eq_nil (E : Services) (s : Store) (p : String) (caller : Nat)
    (h : ∀ w ∈ s.vehicles, ownedBy E p caller w = false) :
    s.vehicles.filter (ownedBy E p caller) = [] := by
  rw [List.filter_eq_nil_iff]
  intro w hw
  simp [h w hw]

theorem filter_not_ownedBy_eq_self (E : Services) (s : Store) (p : String) (caller : Nat)
    (h : ∀ w ∈ s.vehicles, ownedBy E p caller w = false) :
    s.vehicles.filter (fun v => !ownedBy E p caller v) = s.vehicles := by
  rw [List.filter_eq_self]
  intro w hw
  simp [h w hw]

theorem toJson_user_id (v w : VehicleRow) (h : v.toJson = w.toJson) : v.user_id = w.user_id := by
  simp only [VehicleRow.toJson, Json.obj.injEq, List.cons.injEq, Prod.mk.injEq, Json.num.injEq,
    Nat.cast_inj] at h
  exact h.2.1.2

/-- C1, as stated, fails: an update by another user on the id of a vehicle,
sent with a body that lacks the purchase value, is answered 400 and not 404. -/
theorem foreign_update_invalid_body_is_400 :
    ¬ (∀ (E : Services) (now : Nat) (s : Store) (v : VehicleRow) (caller : Claims)
        (req : Request VehicleBody), v ∈ s.vehicles → caller.id ≠ v.user_id →
        (s.vehicles.map (fun r => r.id)).Nodup → E.paramId req.id = some v.id →
        req.user = some caller → (putVehicle E now s req).response.status = 404) := by
  intro h
  have h1 := h sampleServices 0 sampleStore (sampleVehicle 1 1 100 10 150)
    ⟨2, "bia@autogiro.com"⟩
    (sampleVehicleRequest "1" (sampleBody JsValue.undefined) (some ⟨2, "bia@autogiro.com"⟩))
    (by simp [sampleStore]) (by decide) (by decide) (by decide) rfl
  simp [putVehicle, missingRequired, truthy, sampleVehicleRequest, sampleBody, failure] at h1

/-- C1, amended: when vehicle `v` belongs to one user and vehicle ids are
distinct, then for any other caller a get and a delete on the id of `v` are
answered 404 `Veículo não encontrado`, an update is answered 404 when its body
passes the required-field check and 400 otherwise, and the list of the caller
does not contain `v`; after each of these calls the store is the store before. -/
theorem foreign_vehicle_is_not_found (E : Services) (now : Nat) (s : Store) (v : VehicleRow)
    (caller : Claims) (p : String) (hv : v ∈ s.vehicles) (hne : caller.id ≠ v.user_id)
    (hpk : (s.vehicles.map (fun r => r.id)).Nodup) (hp : E.paramId p = some v.id) :
    (∀ req : Request Unit, req.user = some caller → req.id = p →
      getVehicle E s req =
        ⟨failure 404 "Veículo não encontrado", s, [Sql.selectVehicleByIdAndUser]⟩ ∧
      removeVehicle E s req = ⟨failure 404 "Veículo não encontrado", s, [Sql.deleteVehicle]⟩) ∧
    (∀ req : Request VehicleBody, req.user = some caller → req.id = p →
      putVehicle E now s req =
        if missingRequired req.body then
          ⟨failure 400 "Marca, modelo, valor de compra e valor de venda são obrigatórios", s, []⟩
        else ⟨failure 404 "Veículo não encontrado", s, [Sql.updateVehicle]⟩) ∧
    (∀ req : Request Unit, req.user = some caller →
      listVehicles s req =
        ⟨⟨200, Json.obj [("success", Json.bool true),
            ("vehicles", Json.arr ((selectVehiclesByUser s caller.id).map VehicleRow.toJson))]⟩,
          s, [Sql.selectVehiclesByUser]⟩ ∧
      v ∉ selectVehiclesByUser s caller.id ∧
      v.toJson ∉ (selectVehiclesByUser s caller.id).map VehicleRow.toJson) := by
  have hfalse := ownedBy_eq_false_of_other E s v p caller.id hpk hv hp hne
  have hnil := filter_ownedBy_eq_nil E s p caller.id hfalse
  have hself := filter_not_ownedBy_eq_self E s p caller.id hfalse
  have hmem : ∀ w ∈ selectVehiclesByUser s caller.id, w.user_id = caller.id := by
    intro w hw
    rw [selectVehiclesByUser, List.mem_insertionSort, List.mem_filter] at hw
    simpa using hw.2
  refine ⟨?_, ?_, ?_⟩
  · intro req hu hid
    constructor
    · simp only [getVehicle, hu, hid, selectVehicleByIdAndUser, hnil, List.head?_nil]
    · simp only [removeVehicle, hu, hid, deleteVehicle, hnil, hself, List.length_nil, if_true]
  · intro req hu hid
    by_cases hm : missingRequired req.body = true
    · simp only [putVehicle, hm, if_true]
    · have hm2 : missingRequired req.body = false := by simpa using hm
      simp only [putVehicle, hm2, Bool.false_eq_true, if_false, hu, hid, updateVehicle, hnil,
        List.isEmpty_nil, if_true]
  · intro req hu
    refine ⟨?_, ?_, ?_⟩
    · simp only [listVehicles, hu]
    · intro hin
      exact hne (hmem v hin).symm
    · intro hin
      obtain ⟨w, hw, hwv⟩ := List.mem_map.mp hin
      exact hne ((hmem w hw).symm.trans (toJson_user_id w v hwv))

theorem foreign_vehicle_is_not_found_witness :
    (sampleVehicle 1 1 100 10 150 ∈ sampleStore.vehicles ∧
      (⟨2, "bia@autogiro.com"⟩ : Claims).id ≠ (sampleVehicle 1 1 100 10 150).user_id ∧
      (sampleStore.vehicles.map (fun r => r.id)).Nodup ∧
      sampleServices.paramId "1" = some (sampleVehicle 1 1 100 10 150).id) ∧
    getVehicle sampleServices sampleStore
        (sampleRequest (some "Bearer tok2") "1" (some ⟨2, "bia@autogiro.com"⟩)) =
      ⟨failure 404 "Veículo não encontrado", sampleStore, [Sql.selectVehicleByIdAndUser]⟩ :=
  ⟨⟨by simp [sampleStore], by decide, by decide, by decide⟩,
    ((foreign_vehicle_is_not_found sampleServices 0 sampleStore (sampleVehicle 1 1 100 10 150)
      ⟨2, "bia@autogiro.com"⟩ "1" (by simp [sampleStore]) (by decide) (by decide)
      (by decide)).1
      (sampleRequest (some "Bearer tok2") "1" (some ⟨2, "bia@autogiro.com"⟩)) rfl rfl).1⟩

/-! ## Required fields of create and update -/

theorem truthy_eq_false (v : JsValue) :
    truthy v = false ↔
      (v = JsValue.undefined ∨ v = JsValue.null ∨ v = JsValue.bool false ∨
        v = JsValue.number 0 ∨ v = JsValue.string "") := by
  cases v <;> simp [truthy]

theorem missingRequired_of_falsy (b : VehicleBody)
    (h : truthy b.marca = false ∨ truthy b.modelo = false ∨ truthy b.valorCompra = false ∨
      truthy b.valorVenda = false) : missingRequired b = true := by
  simp only [missingRequired, Bool.or_eq_true, Bool.not_eq_true']
  tauto

theorem createVehicle_of_missing (E : Services) (now : Nat) (s : Store)
    (req : Request VehicleBody) (h : missingRequired req.body = true) :
    createVehicle E now s req =
      ⟨failure 400 "Marca, modelo, valor de compra e valor de venda são obrigatórios", s, []⟩ := by
  simp [createVehicle, h]

theorem putVehicle_of_missing (E : Services) (now : Nat) (s : Store)
    (req : Request VehicleBody) (h : missingRequired req.body = true) :
    putVehicle E now s req =
      ⟨failure 400 "Marca, modelo, valor de compra e valor de venda são obrigatórios", s, []⟩ := by
  simp [putVehicle, h]

/-- C3: a create or update request in which brand, model, purchase value or
sale value is omitted (`undefined` or `null`) or left empty is answered 400 with
the store unchanged and no statement issued; this holds for the handlers and
for the authenticated routes `POST /api/vehicles` and `PUT /api/vehicles/:id`. -/
theorem missing_field_rejected_before_storage (E : Services) (now : Nat) (s : Store)
    (req : Request VehicleBody)
    (hmiss :
      (req.body.marca = JsValue.undefined ∨ req.body.marca = JsValue.null ∨
        req.body.marca = JsValue.string "") ∨
      (req.body.modelo = JsValue.undefined ∨ req.body.modelo = JsValue.null ∨
        req.body.modelo = JsValue.string "") ∨
      (req.body.valorCompra = JsValue.undefined ∨ req.body.valorCompra = JsValue.null ∨
        req.body.valorCompra = JsValue.string "") ∨
      (req.body.valorVenda = JsValue.undefined ∨ req.body.valorVenda = JsValue.null ∨
        req.body.valorVenda = JsValue.string "")) :
    createVehicle E now s req =
      ⟨failure 400 "Marca, modelo, valor de compra e valor de venda são obrigatórios", s, []⟩ ∧
    putVehicle E now s req =
      ⟨failure 400 "Marca, modelo, valor de compra e valor de venda são obrigatórios", s, []⟩ ∧
    (∀ token user, bearerToken req.authorization = some token → token ≠ "" →
      E.verify token now = some user →
      apiCreateVehicle E now s req =
        ⟨failure 400 "Marca, modelo, valor de compra e valor de venda são obrigatórios", s, []⟩ ∧
      apiPutVehicle E now s req =
        ⟨failure 400 "Marca, modelo, valor de compra e valor de venda são obrigatórios", s, []⟩) := by
  have hm : missingRequired req.body = true := by
    apply missingRequired_of_falsy
    rcases hmiss with h | h | h | h
    · left
      rcases h with h | h | h <;> simp [h, truthy]
    · right; left
      rcases h with h | h | h <;> simp [h, truthy]
    · right; right; left
      rcases h with h | h | h <;> simp [h, truthy]
    · right; right; right
      rcases h with h | h | h <;> simp [h, truthy]
  refine ⟨createVehicle_of_missing E now s req hm, putVehicle_of_missing E now s req hm, ?_⟩
  intro token user ht hne hv
  constructor
  · rw [apiCreateVehicle, guarded_of_verified E now s req _ token user ht hne hv]
    exact createVehicle_of_missing E now s _ hm
  · rw [apiPutVehicle, guarded_of_verified E now s req _ token user ht hne hv]
    exact putVehicle_of_missing E now s _ hm

theorem missing_field_rejected_before_storage_witness :
    ((sampleVehicleRequest "1" (sampleBody JsValue.undefined)
        (some ⟨1, "ana@autogiro.com"⟩)).body.valorCompra = JsValue.undefined) ∧
    createVehicle sampleServices 0 sampleStore
        (sampleVehicleRequest "1" (sampleBody JsValue.undefined)
          (some ⟨1, "ana@autogiro.com"⟩)) =
      ⟨failure 400 "Marca, modelo, valor de compra e valor de venda são obrigatórios",
        sampleStore, []⟩ :=
  ⟨rfl,
    (missing_field_rejected_before_storage sampleServices 0 sampleStore
      (sampleVehicleRequest "1" (sampleBody JsValue.undefined) (some ⟨1, "ana@autogiro.com"⟩))
      (Or.inr (Or.inr (Or.inl (Or.inl rfl))))).1⟩

/-- C9: the code at the failing input. With brand, model and sale value
supplied and the purchase value supplied as the number 0, create and update
answer 400 `... são obrigatórios` and nothing reaches storage, although no
required field is absent or empty; the same request with the purchase value
supplied as the string `0` passes validation, reaches storage and is answered 201. -/
theorem zero_purchase_value_rejected :
    (sampleBody (JsValue.number 0)).marca = JsValue.string "Fiat" ∧
    (sampleBody (JsValue.number 0)).modelo = JsValue.string "Uno" ∧
    (sampleBody (JsValue.number 0)).valorCompra = JsValue.number 0 ∧
    (sampleBody (JsValue.number 0)).valorVenda = JsValue.number 150 ∧
    createVehicle sampleServices 0 sampleStore
        (sampleVehicleRequest "1" (sampleBody (JsValue.number 0))
          (some ⟨1, "ana@autogiro.com"⟩)) =
      ⟨failure 400 "Marca, modelo, valor de compra e valor de venda são obrigatórios",
        sampleStore, []⟩ ∧
    putVehicle sampleServices 0 sampleStore
        (sampleVehicleRequest "1" (sampleBody (JsValue.number 0))
          (some ⟨1, "ana@autogiro.com"⟩)) =
      ⟨failure 400 "Marca, modelo, valor de compra e valor de venda são obrigatórios",
        sampleStore, []⟩ ∧
    (createVehicle sampleServices 0 sampleStore
        (sampleVehicleRequest "1" (sampleBody (JsValue.string "0"))
          (some ⟨1, "ana@autogiro.com"⟩))).response.status = 201 ∧
    (createVehicle sampleServices 0 sampleStore
        (sampleVehicleRequest "1" (sampleBody (JsValue.string "0"))
          (some ⟨1, "ana@autogiro.com"⟩))).trace = [Sql.insertVehicle, Sql.selectVehicleById] := by
  refine ⟨rfl, rfl, rfl, rfl, ?_, ?_, ?_, ?_⟩
  · exact createVehicle_of_missing _ _ _ _ (by simp [missingRequired, truthy, sampleVehicleRequest, sampleBody])
  · exact putVehicle_of_missing _ _ _ _ (by simp [missingRequired, truthy, sampleVehicleRequest, sampleBody])
  · decide
  · decide

/-! ## Dashboard -/

theorem filter_owner_append_others (others rows : List VehicleRow) (userId : Nat)
    (h : ∀ w ∈ others, w.user_id ≠ userId) :
    (others ++ rows).filter (fun v => decide (v.user_id = userId)) =
      rows.filter (fun v => decide (v.user_id = userId)) := by
  rw [List.filter_append]
  have : others.filter (fun v => decide (v.user_id = userId)) = [] := by
    rw [List.filter_eq_nil_iff]
    intro w hw
    simpa using h w hw
  rw [this, List.nil_append]

theorem half_bound (a d q : Nat) (hd : 0 < d) (h1 : 2 * d * q ≤ 2 * a + d)
    (h2 : 2 * a + d < 2 * d * (q + 1)) : |(q : ℚ) - (a : ℚ) / d| ≤ 1 / 2 := by
  have hd2 : (0 : ℚ) < d := by exact_mod_cast hd
  have h1q : (2 * d * q : ℚ) ≤ 2 * a + d := by exact_mod_cast h1
  have h2q : (2 * a + d : ℚ) < 2 * d * (q + 1) := by exact_mod_cast h2
  have hx : (a : ℚ) = (a : ℚ) / d * d := by field_simp
  rw [abs_le]
  constructor
  · by_contra hc
    push_neg at hc
    nlinarith
  · by_contra hc
    push_neg at hc
    nlinarith

theorem roundHalfAway_bound (n : Int) (d : Nat) (hd : 0 < d) :
    |(roundHalfAway n d : ℚ) - (n : ℚ) / d| ≤ 1 / 2 := by
  have h1 : 2 * d * ((2 * n.natAbs + d) / (2 * d)) ≤ 2 * n.natAbs + d := Nat.mul_div_le _ _
  have h2 : 2 * n.natAbs + d < 2 * d * ((2 * n.natAbs + d) / (2 * d) + 1) :=
    Nat.lt_mul_div_succ _ (by omega)
  have key := half_bound n.natAbs d ((2 * n.natAbs + d) / (2 * d)) hd h1 h2
  by_cases hn : 0 ≤ n
  · have hcast : (n : ℚ) = (n.natAbs : ℚ) := by
      calc (n : ℚ) = (((n.natAbs : ℕ) : ℤ) : ℚ) := by rw [Int.natAbs_of_nonneg hn]
        _ = (n.natAbs : ℚ) := Int.cast_natCast _
    simp only [roundHalfAway, hn, if_true, hcast, Int.cast_natCast]
    exact key
  · have habs : ((n.natAbs : ℕ) : ℤ) = -n := by omega
    have hcast : (n : ℚ) = -(n.natAbs : ℚ) := by
      calc (n : ℚ) = -(((n.natAbs : ℕ) : ℤ) : ℚ) := by rw [habs, Int.cast_neg, neg_neg]
        _ = -(n.natAbs : ℚ) := by rw [Int.cast_natCast]
    simp only [roundHalfAway, hn, if_false, hcast, Int.cast_neg, Int.cast_natCast]
    rw [neg_div, neg_sub_neg, abs_sub_comm]
    exact key

theorem half_strict (a d q : Nat) (hd : 0 < d) (h2 : 2 * a + d < 2 * d * (q + 1)) :
    (a : ℚ) / d - 1 / 2 < q := by
  have hd2 : (0 : ℚ) < d := by exact_mod_cast hd
  have h2q : (2 * a + d : ℚ) < 2 * d * (q + 1) := by exact_mod_cast h2
  have hx : (a : ℚ) = (a : ℚ) / d * d := by field_simp
  by_contra hc
  push_neg at hc
  nlinarith

theorem roundHalfAway_tie (n : Int) (d : Nat) (hd : 0 < d) :
    (0 ≤ n → (n : ℚ) / d - 1 / 2 < (roundHalfAway n d : ℚ)) ∧
    (n < 0 → (roundHalfAway n d : ℚ) < (n : ℚ) / d + 1 / 2) := by
  have h2 : 2 * n.natAbs + d < 2 * d * ((2 * n.natAbs + d) / (2 * d) + 1) :=
    Nat.lt_mul_div_succ _ (by omega)
  have key := half_strict n.natAbs d ((2 * n.natAbs + d) / (2 * d)) hd h2
  constructor
  · intro hn
    have hcast : (n : ℚ) = (n.natAbs : ℚ) := by
      calc (n : ℚ) = (((n.natAbs : ℕ) : ℤ) : ℚ) := by rw [Int.natAbs_of_nonneg hn]
        _ = (n.natAbs : ℚ) := Int.cast_natCast _
    simp only [roundHalfAway, hn, if_true, hcast, Int.cast_natCast]
    exact key
  · intro hn
    have hn2 : ¬ 0 ≤ n := by omega
    have habs : ((n.natAbs : ℕ) : ℤ) = -n := by omega
    have hcast : (n : ℚ) = -(n.natAbs : ℚ) := by
      calc (n : ℚ) = -(((n.natAbs : ℕ) : ℤ) : ℚ) := by rw [habs, Int.cast_neg, neg_neg]
        _ = -(n.natAbs : ℚ) := by rw [Int.cast_natCast]
    simp only [roundHalfAway, hn2, if_false, hcast, Int.cast_neg, Int.cast_natCast]
    rw [neg_div]
    linarith

theorem sum_margin_cast (rows : List VehicleRow) :
    (((rows.map margin).sum : Int) : ℚ) / 100 =
      (rows.map (fun v =>
        (v.valor_venda : ℚ) / 100 - (v.valor_compra : ℚ) / 100 - (v.impostos : ℚ) / 100)).sum := by
  induction rows with
  | nil => simp
  | cons v l ih =>
    simp only [List.map_cons, List.sum_cons]
    rw [← ih]
    simp only [margin]
    push_cast
    ring

/-- C4, as stated, fails: for an owner with three vehicles of margins 0.33,
0.33 and 0.34 the total is 1.00 and the average returned is 0.333333, which is
not the total divided by three. -/
theorem average_is_rounded :
    ¬ (∀ (s : Store) (userId : Nat) (avg total : Int),
        s.vehicles.filter (fun v => decide (v.user_id = userId)) ≠ [] →
        (selectDashboard s userId).avg_margin = some avg →
        (selectDashboard s userId).total_margin = some total →
        (avg : ℚ) / 1000000 =
          (total : ℚ) / 100 / ((selectDashboard s userId).total_vehicles : ℚ)) := by
  intro h
  have h1 := h thirdsStore 1 333333 100 (by decide) (by decide) (by decide)
  have h2 : (selectDashboard thirdsStore 1).total_vehicles = 3 := by decide
  rw [h2] at h1
  norm_num at h1

/-- C4, amended: for an owner with at least one vehicle, the dashboard reports
as `total_vehicles` the number of the owner's rows, as `total_margin` the exact
sum over those rows of `valor_venda - valor_compra - impostos`, and as
`avg_margin` that sum divided by that number and rounded to six digits after
the point, a half going away from zero, so within half a millionth of the exact
quotient; the two decimals are returned as strings; rows of other owners added to the table leave the
three figures unchanged. -/
theorem dashboard_aggregates_owner_margins {β : Type} (s : Store) (req : Request β)
    (user : Claims) (hu : req.user = some user)
    (hne : s.vehicles.filter (fun v => decide (v.user_id = user.id)) ≠ []) :
    ∃ avg total : Int,
      selectDashboard s user.id =
        ⟨(s.vehicles.filter (fun v => decide (v.user_id = user.id))).length,
          some avg, some total⟩ ∧
      (total : ℚ) / 100 =
        ((s.vehicles.filter (fun v => decide (v.user_id = user.id))).map (fun v =>
          (v.valor_venda : ℚ) / 100 - (v.valor_compra : ℚ) / 100 -
            (v.impostos : ℚ) / 100)).sum ∧
      |(avg : ℚ) / 1000000 -
          (total : ℚ) / 100 /
            ((s.vehicles.filter (fun v => decide (v.user_id = user.id))).length : ℚ)| ≤
        1 / 2000000 ∧
      (0 ≤ total →
        (total : ℚ) / 100 /
            ((s.vehicles.filter (fun v => decide (v.user_id = user.id))).length : ℚ) -
          1 / 2000000 < (avg : ℚ) / 1000000) ∧
      (total < 0 →
        (avg : ℚ) / 1000000 <
          (total : ℚ) / 100 /
            ((s.vehicles.filter (fun v => decide (v.user_id = user.id))).length : ℚ) +
          1 / 2000000) ∧
      dashboard s req =
        ⟨⟨200, Json.obj [("success", Json.bool true),
            ("stats", Json.obj
              [("total_vehicles",
                  Json.num (s.vehicles.filter (fun v => decide (v.user_id = user.id))).length),
                ("avg_margin", Json.str (decimalString 6 avg)),
                ("total_margin", Json.str (decimalString 2 total))])]⟩,
          s, [Sql.selectDashboard]⟩ ∧
      (∀ others : List VehicleRow, (∀ w ∈ others, w.user_id ≠ user.id) →
        selectDashboard { s with vehicles := others ++ s.vehicles } user.id =
          selectDashboard s user.id) := by
  have hemp : (s.vehicles.filter (fun v => decide (v.user_id = user.id))).isEmpty = false := by
    cases hrows : s.vehicles.filter (fun v => decide (v.user_id = user.id)) with
    | nil => exact absurd hrows hne
    | cons a l => rfl
  have hpos : 0 < (s.vehicles.filter (fun v => decide (v.user_id = user.id))).length :=
    List.length_pos.mpr hne
  have hstats : selectDashboard s user.id =
      ⟨(s.vehicles.filter (fun v => decide (v.user_id = user.id))).length,
        some (roundHalfAway
          (((s.vehicles.filter (fun v => decide (v.user_id = user.id))).map margin).sum * 10000)
          (s.vehicles.filter (fun v => decide (v.user_id = user.id))).length),
        some ((s.vehicles.filter (fun v => decide (v.user_id = user.id))).map margin).sum⟩ := by
    simp only [selectDashboard, hemp, Bool.false_eq_true, if_false]
  have hlen : (0 : ℚ) <
      ((s.vehicles.filter (fun v => decide (v.user_id = user.id))).length : ℚ) := by
    exact_mod_cast hpos
  have htie := roundHalfAway_tie
    (((s.vehicles.filter (fun v => decide (v.user_id = user.id))).map margin).sum * 10000)
    (s.vehicles.filter (fun v => decide (v.user_id = user.id))).length hpos
  simp only [Int.cast_mul, Int.cast_ofNat] at htie
  have hscale : ∀ t n : ℚ, 0 < n → t * 10000 / n = t / 100 / n * 1000000 := by
    intro t n hn
    field_simp
    ring
  refine ⟨_, _, hstats, sum_margin_cast _, ?_, ?_, ?_, ?_, ?_⟩
  rotate_left
  · intro h0
    have h1 := htie.1 (by omega)
    rw [hscale _ _ hlen] at h1
    linarith
  · intro h0
    have h1 := htie.2 (by omega)
    rw [hscale _ _ hlen] at h1
    linarith
  rotate_left 2
  · have hb := roundHalfAway_bound
      (((s.vehicles.filter (fun v => decide (v.user_id = user.id))).map margin).sum * 10000)
      (s.vehicles.filter (fun v => decide (v.user_id = user.id))).length hpos
    simp only [Int.cast_mul, Int.cast_ofNat] at hb
    have heq : ∀ r t n : ℚ, 0 < n →
        r / 1000000 - t / 100 / n = (r - t * 10000 / n) / 1000000 := by
      intro r t n hn
      field_simp
      ring
    rw [heq _ _ _ hlen, abs_div]
    have h6 : |(1000000 : ℚ)| = 1000000 := abs_of_pos (by norm_num)
    rw [h6, div_le_iff₀ (by norm_num)]
    calc _ ≤ (1 : ℚ) / 2 := hb
      _ = 1 / 2000000 * 1000000 := by norm_num
  · simp only [dashboard, hu, hstats, Stats.toJson, nullable]
  · intro others hothers
    simp only [selectDashboard, filter_owner_append_others others s.vehicles user.id hothers]

theorem dashboard_aggregates_owner_margins_witness :
    ((sampleRequest none "" (some ⟨1, "ana@autogiro.com"⟩)).user =
        some ⟨1, "ana@autogiro.com"⟩ ∧
      sampleStore.vehicles.filter (fun v => decide (v.user_id = 1)) ≠ []) ∧
    selectDashboard sampleStore 1 = ⟨2, some 60000000, some 12000⟩ ∧
    dashboard sampleStore (sampleRequest none "" (some ⟨1, "ana@autogiro.com"⟩)) =
      ⟨⟨200, Json.obj [("success", Json.bool true),
          ("stats", Json.obj [("total_vehicles", Json.num 2),
            ("avg_margin", Json.str "60.000000"), ("total_margin", Json.str "120.00")])]⟩,
        sampleStore, [Sql.selectDashboard]⟩ := by
  obtain ⟨avg, total, h1, _, _, _, _, h4, _⟩ :=
    dashboard_aggregates_owner_margins sampleStore
      (sampleRequest none "" (some ⟨1, "ana@autogiro.com"⟩)) ⟨1, "ana@autogiro.com"⟩ rfl
      (by decide)
  have h0 : selectDashboard sampleStore 1 = ⟨2, some 60000000, some 12000⟩ := by decide
  have h5 : selectDashboard sampleStore (⟨1, "ana@autogiro.com"⟩ : Claims).id =
      selectDashboard sampleStore 1 := rfl
  rw [h5, h0] at h1
  have havg : avg = 60000000 := by
    have := congrArg Stats.avg_margin h1
    simp at this
    exact this.symm
  have htotal : total = 12000 := by
    have := congrArg Stats.total_margin h1
    simp at this
    exact this.symm
  subst havg htotal
  refine ⟨⟨rfl, by decide⟩, h0, ?_⟩
  rw [h4]
  have hlen : (sampleStore.vehicles.filter
      (fun v => decide (v.user_id = (⟨1, "ana@autogiro.com"⟩ : Claims).id))).length = 2 := by
    decide
  have hs6 : decimalString 6 60000000 = "60.000000" := by decide
  have hs2 : decimalString 2 12000 = "120.00" := by decide
  rw [hlen, hs6, hs2]
  norm_num

/-- C10: for an owner with no vehicles the dashboard answers 200 with
`total_vehicles` 0 and with `avg_margin` and `total_margin` both `null`; the
store is unchanged and the only statement is the aggregate query. This holds
for the handler and for the authenticated route `GET /api/dashboard`. -/
theorem dashboard_of_no_vehicles (s : Store) (user : Claims)
    (hnone : ∀ v ∈ s.vehicles, v.user_id ≠ user.id) :
    (∀ (β : Type) (req : Request β), req.user = some user →
      dashboard s req =
        ⟨⟨200, Json.obj [("success", Json.bool true),
            ("stats", Json.obj [("total_vehicles", Json.num 0), ("avg_margin", Json.null),
              ("total_margin", Json.null)])]⟩,
          s, [Sql.selectDashboard]⟩) ∧
    (∀ (E : Services) (now : Nat) (req : Request Unit) (token : String),
      bearerToken req.authorization = some token → token ≠ "" →
      E.verify token now = some user →
      apiDashboard E now s req =
        ⟨⟨200, Json.obj [("success", Json.bool true),
            ("stats", Json.obj [("total_vehicles", Json.num 0), ("avg_margin", Json.null),
              ("total_margin", Json.null)])]⟩,
          s, [Sql.selectDashboard]⟩) := by
  have hrows : s.vehicles.filter (fun v => decide (v.user_id = user.id)) = [] := by
    rw [List.filter_eq_nil_iff]
    intro v hv
    simpa using hnone v hv
  have hstats : selectDashboard s user.id = ⟨0, none, none⟩ := by
    simp [selectDashboard, hrows]
  have hh : ∀ (β : Type) (req : Request β), req.user = some user →
      dashboard s req =
        ⟨⟨200, Json.obj [("success", Json.bool true),
            ("stats", Json.obj [("total_vehicles", Json.num 0), ("avg_margin", Json.null),
              ("total_margin", Json.null)])]⟩,
          s, [Sql.selectDashboard]⟩ := by
    intro β req hu
    simp [dashboard, hu, hstats, Stats.toJson, nullable]
  refine ⟨hh, ?_⟩
  intro E now req token ht hne hv
  rw [apiDashboard, guarded_of_verified E now s req _ token user ht hne hv]
  exact hh Unit _ rfl

theorem dashboard_of_no_vehicles_witness :
    (∀ v ∈ sampleStore.vehicles, v.user_id ≠ (⟨2, "bia@autogiro.com"⟩ : Claims).id) ∧
    apiDashboard sampleServices 0 sampleStore (sampleRequest (some "Bearer tok2") "" none) =
      ⟨⟨200, Json.obj [("success", Json.bool true),
          ("stats", Json.obj [("total_vehicles", Json.num 0), ("avg_margin", Json.null),
            ("total_margin", Json.null)])]⟩,
        sampleStore, [Sql.selectDashboard]⟩ :=
  ⟨by decide,
    (dashboard_of_no_vehicles sampleStore ⟨2, "bia@autogiro.com"⟩ (by decide)).2 sampleServices 0
      (sampleRequest (some "Bearer tok2") "" none) "tok2" (by decide) (by decide) (by decide)⟩

end Autogiro
